import Mathlib

/-!
Verification of the JobMatch cookie-consent subsystem.

This file shallowly embeds the consent subsystem of the repository:
`CookieManager` from `src/js/cookie.js` (preference store, banner state
machine, toasts) and `CookieResourceLoader` from the dynamic loader file
(retry with exponential backoff, sequential asset loading, fallback banner).

Modelling conventions:
* Timestamps are `Nat` ticks (milliseconds).  JavaScript calendar month
  arithmetic (`expiry.setMonth(expiry.getMonth() + 6)`) is abstracted to
  adding a fixed six-month duration `EXPIRY_MONTHS * MONTH_MS`; the claims
  only use that the expiry bounds the validity window from above.
* The value stored under `localStorage['cookiePreferences']` is modelled
  after parsing: `Stored.absent` (no value), `Stored.malformed`
  (`getItem`/`JSON.parse` throws), or `Stored.record prefs expiry version`
  where each field is `Option`al (`none` = field missing or falsy).
* DOM/animation effects are modelled by their settled outcome after all
  scheduled timeouts have run (the page is single-threaded).
* `console.*` logging and `trackConsentChoice` (a pure `console.log`) are
  not modelled; toasts are recorded in an explicit list.
-/

namespace CookieConsent

/-! ## Data model -/

/-- A preference set: the JavaScript object written under the `prefs` key.
Each category is `Option Bool` (`none` = the key is absent from the object);
`timestamp` is the ISO timestamp `CookieManager` stamps into every set it
builds (absent from the fallback banner's record). -/
structure Prefs where
  essential : Option Bool
  analytics : Option Bool
  personalization : Option Bool
  ads : Option Bool
  timestamp : Option Nat
deriving DecidableEq, Repr

/-- The parsed content of `localStorage.getItem('cookiePreferences')`. -/
inductive Stored where
  | absent
  | malformed
  | record (prefs : Option Prefs) (expiry : Option Nat) (version : Option String)
deriving DecidableEq, Repr

/-- `this.STORAGE_KEY = 'cookiePreferences'`. -/
def STORAGE_KEY : String := "cookiePreferences"

/-- `this.EXPIRY_MONTHS = 6`. -/
def EXPIRY_MONTHS : Nat := 6

/-- `this.ANIMATION_DURATION = 300`. -/
def ANIMATION_DURATION : Nat := 300

/-- One month in milliseconds (30 days), the duration the fallback banner
uses literally (`6*30*24*60*60*1000`); `Date.setMonth` arithmetic of the
main manager is abstracted to the same fixed duration. -/
def MONTH_MS : Nat := 30 * 24 * 60 * 60 * 1000

/-- `expiry.setMonth(expiry.getMonth() + months)` on a date at tick `t`. -/
def addMonths (t : Nat) (months : Nat) : Nat := t + months * MONTH_MS

/-- `CookieManager.hasValidPreferences` (cookie.js 145-163): reads the
store; absent value, parse failure, or a missing/falsy `expiry` or `prefs`
field yields `false` (the JS `catch` returns `false`, never raising);
otherwise the record is valid iff `expiryDate > now`. -/
def hasValidPreferences (st : Stored) (now : Nat) : Bool :=
  match st with
  | Stored.absent => false
  | Stored.malformed => false
  | Stored.record prefs expiry _ =>
    match prefs, expiry with
    | some _, some e => decide (now < e)
    | _, _ => false

/-- `CookieManager.getPreferences` (cookie.js 482-494): returns
`data.prefs || null`; absent value or parse failure returns `null` via the
`catch`.  Note: it never consults `expiry`. -/
def getPreferences (st : Stored) : Option Prefs :=
  match st with
  | Stored.record prefs _ _ => prefs
  | _ => none

/-! ## Banner state machine -/

/-- Toast classes of `showToast` (cookie.js 413): `success`, `error`, `info`. -/
inductive ToastType where
  | success
  | error
  | info
deriving DecidableEq, Repr

/-- The settled page state relevant to the consent subsystem.
`bannerPresent` models whether the `#cookie-banner` anchor (and with it the
`.cookie-content` and `#cookie-settings` anchors of the loaded markup)
exists; `bannerShown` models `banner.style.display !== 'none'`;
`settingsHidden` models the `hidden` class on `#cookie-settings`;
`contentShown` models the `.cookie-content` display; `applied` models
`window.cookiePreferences` as set by `applyPreferences`; `writeCount`
counts successful `localStorage.setItem` calls; `storageOk` models whether
`localStorage.setItem` succeeds or throws (e.g. quota exceeded). -/
structure UIState where
  bannerPresent : Bool
  bannerShown : Bool
  settingsHidden : Bool
  contentShown : Bool
  stored : Stored
  applied : Option Prefs
  toasts : List (ToastType × String)
  writeCount : Nat
  storageOk : Bool
deriving DecidableEq, Repr

/-- The banner phase, derived from the settled DOM state. -/
inductive Phase where
  | Hidden
  | MainVisible
  | SettingsVisible
deriving DecidableEq, Repr

/-- `CookieManager.isBannerVisible` (cookie.js 385-387). -/
def isBannerVisible (s : UIState) : Bool := s.bannerPresent && s.bannerShown

/-- `CookieManager.isSettingsVisible` (cookie.js 392-394). -/
def isSettingsVisible (s : UIState) : Bool := s.bannerPresent && !s.settingsHidden

/-- The phase the banner is in: hidden, main content, or settings panel. -/
def phase (s : UIState) : Phase :=
  if isBannerVisible s then
    if isSettingsVisible s then Phase.SettingsVisible else Phase.MainVisible
  else Phase.Hidden

/-- `CookieManager.hideBanner` (cookie.js 371-380), settled after the
`ANIMATION_DURATION` timeout set `display = 'none'`. -/
def hideBanner (s : UIState) : UIState :=
  if s.bannerPresent then { s with bannerShown := false } else s

/-- `CookieManager.showBanner` (cookie.js 359-366). -/
def showBanner (s : UIState) : UIState :=
  if s.bannerPresent then { s with bannerShown := true } else s

/-- `CookieManager.showToast` (cookie.js 413-464): appends a transient
notification of the given class. -/
def showToast (ty : ToastType) (msg : String) (s : UIState) : UIState :=
  { s with toasts := s.toasts ++ [(ty, msg)] }

/-- `CookieManager.showConfirmation` (cookie.js 399-401). -/
def showConfirmation (msg : String) (s : UIState) : UIState :=
  showToast ToastType.success msg s

/-- `CookieManager.showError` (cookie.js 406-408). -/
def showError (msg : String) (s : UIState) : UIState :=
  showToast ToastType.error msg s

/-- `CookieManager.applyPreferences` (cookie.js 304-321): publishes the
decision (`window.cookiePreferences = preferences`); the analytics
enable/disable hooks are `console.log` placeholders. -/
def applyPreferences (p : Prefs) (s : UIState) : UIState :=
  { s with applied := some p }

/-- `CookieManager.savePreferences` (cookie.js 273-299): computes
`expiry = now + 6 months`, stamps `version: '1.0'`, and attempts
`localStorage.setItem`.  On success it then applies the preferences,
hides the banner and shows a success toast; if `setItem` throws, the
`catch` only logs and shows an error toast — nothing else of the `try`
body runs. -/
def savePreferences (p : Prefs) (now : Nat) (s : UIState) : UIState :=
  if s.storageOk then
    let withRecord : UIState :=
      { s with
        stored := Stored.record (some p) (some (addMonths now EXPIRY_MONTHS)) (some "1.0")
        writeCount := s.writeCount + 1 }
    showConfirmation "Vos préférences de cookies ont été sauvegardées."
      (hideBanner (applyPreferences p withRecord))
  else
    showError "Impossible de sauvegarder vos préférences." s

/-- The preference set built by `handleAcceptAll` (cookie.js 168-179). -/
def acceptAllPrefs (now : Nat) : Prefs :=
  ⟨some true, some true, some true, some true, some now⟩

/-- The preference set built by `handleRejectAll` (cookie.js 184-195). -/
def rejectAllPrefs (now : Nat) : Prefs :=
  ⟨some true, some false, some false, some false, some now⟩

/-- The checkbox content of `#cookiePreferencesForm`: `formData.has(c)`
for each optional category. -/
structure FormData where
  analytics : Bool
  personalization : Bool
  ads : Bool
deriving DecidableEq, Repr

/-- The preference set built by `handleFormSubmit` (cookie.js 248-268):
`essential` is hard-coded `true`. -/
def customPrefs (f : FormData) (now : Nat) : Prefs :=
  ⟨some true, some f.analytics, some f.personalization, some f.ads, some now⟩

/-- `CookieManager.handleAcceptAll` (cookie.js 168-179). -/
def handleAcceptAll (now : Nat) (s : UIState) : UIState :=
  savePreferences (acceptAllPrefs now) now s

/-- `CookieManager.handleRejectAll` (cookie.js 184-195). -/
def handleRejectAll (now : Nat) (s : UIState) : UIState :=
  savePreferences (rejectAllPrefs now) now s

/-- `CookieManager.handleFormSubmit` (cookie.js 248-268). -/
def handleFormSubmit (f : FormData) (now : Nat) (s : UIState) : UIState :=
  savePreferences (customPrefs f now) now s

/-- `CookieManager.handleCustomize` (cookie.js 200-222), settled after its
timeout: main content hidden, settings `hidden` class removed.  The guard
`!this.cookieContent || !this.settings` is tied to `bannerPresent` (the
anchors come with the banner markup). -/
def handleCustomize (s : UIState) : UIState :=
  if s.bannerPresent then { s with contentShown := false, settingsHidden := false } else s

/-- `CookieManager.handleBack` (cookie.js 227-243), settled after its
timeout: settings `hidden` class added, main content restored. -/
def handleBack (s : UIState) : UIState :=
  if s.bannerPresent then { s with settingsHidden := true, contentShown := true } else s

/-- `CookieManager.handleKeyDown` (cookie.js 129-140). -/
def handleKeyDown (key : String) (now : Nat) (s : UIState) : UIState :=
  if !isBannerVisible s then s
  else if key = "Escape" then
    if isSettingsVisible s then handleBack s else handleRejectAll now s
  else s

/-- A button click dispatches the button's own listener and then the
document-level listener installed in `setupEventListeners`
(cookie.js 93-97), which hides the banner on every `BUTTON` click. -/
def clickButton (handler : UIState → UIState) (s : UIState) : UIState :=
  hideBanner (handler s)

/-- Clicking the `customize` button. -/
def clickCustomize (s : UIState) : UIState := clickButton handleCustomize s

/-- Clicking the `back` button. -/
def clickBack (s : UIState) : UIState := clickButton handleBack s

/-- `CookieManager.init` (cookie.js 40-62) from a fresh page load: with no
banner anchor it aborts; with a valid stored record it hides the banner
and returns; otherwise it wires listeners and shows the banner. -/
def initState (stored : Stored) (bannerPresent : Bool) (storageOk : Bool) (now : Nat) : UIState :=
  let s0 : UIState :=
    ⟨bannerPresent, false, true, true, stored, none, [], 0, storageOk⟩
  if !bannerPresent then s0
  else if hasValidPreferences stored now then hideBanner s0
  else showBanner s0

/-! ## Projection lemmas -/

@[simp]
lemma hideBanner_stored (s : UIState) : (hideBanner s).stored = s.stored := by
  unfold hideBanner; split <;> rfl

@[simp]
lemma hideBanner_applied (s : UIState) : (hideBanner s).applied = s.applied := by
  unfold hideBanner; split <;> rfl

@[simp]
lemma hideBanner_writeCount (s : UIState) : (hideBanner s).writeCount = s.writeCount := by
  unfold hideBanner; split <;> rfl

@[simp]
lemma hideBanner_toasts (s : UIState) : (hideBanner s).toasts = s.toasts := by
  unfold hideBanner; split <;> rfl

@[simp]
lemma applyPreferences_stored (p : Prefs) (s : UIState) :
    (applyPreferences p s).stored = s.stored := rfl

@[simp]
lemma applyPreferences_writeCount (p : Prefs) (s : UIState) :
    (applyPreferences p s).writeCount = s.writeCount := rfl

@[simp]
lemma applyPreferences_applied (p : Prefs) (s : UIState) :
    (applyPreferences p s).applied = some p := rfl

@[simp]
lemma showToast_stored (ty : ToastType) (m : String) (s : UIState) :
    (showToast ty m s).stored = s.stored := rfl

@[simp]
lemma showToast_applied (ty : ToastType) (m : String) (s : UIState) :
    (showToast ty m s).applied = s.applied := rfl

@[simp]
lemma showToast_writeCount (ty : ToastType) (m : String) (s : UIState) :
    (showToast ty m s).writeCount = s.writeCount := rfl

/-- On a successful write, the stored value is the freshly built record. -/
lemma savePreferences_stored (p : Prefs) (now : Nat) (s : UIState) (h : s.storageOk = true) :
    (savePreferences p now s).stored =
      Stored.record (some p) (some (addMonths now EXPIRY_MONTHS)) (some "1.0") := by
  simp [savePreferences, h, showConfirmation]

/-! ## Resource loader (`CookieResourceLoader`) -/

/-- `this.RESOURCE_TIMEOUT = 5000` — the per-fetch timeout (ms) used by
`loadCSS`, `loadHTML` and `loadJS` alike. -/
def RESOURCE_TIMEOUT : Nat := 5000

/-- `this.RETRY_ATTEMPTS = 3`. -/
def RETRY_ATTEMPTS : Nat := 3

/-- `this.RETRY_DELAY = 1000`. -/
def RETRY_DELAY : Nat := 1000

/-- The outcome and observable trace of `retryOperation`: the final
result, the number of attempts the operation was invoked, and the backoff
delays actually waited between attempts, in order. -/
structure RetryTrace (α : Type) where
  result : Except String α
  attempts : Nat
  delays : List Nat
deriving Repr

/-- The loop body of `CookieResourceLoader.retryOperation` (351-371):
`attempt` is the 1-based index of the next attempt, `remaining` the number
of attempts left in the budget.  `op k` is the outcome of the `k`-th
invocation of the operation.  On failure with attempts left it waits
`baseDelay * 2^(attempt-1) + jitter attempt` (the jitter models
`Math.random() * 500`, a value below 500) and retries; once the budget is
exhausted it rethrows the last error. -/
def retryGo {α : Type} (op : Nat → Except String α) (baseDelay : Nat) (jitter : Nat → Nat) :
    Nat → Nat → RetryTrace α
  | _, 0 => ⟨Except.error "retry budget exhausted", 0, []⟩
  | attempt, remaining + 1 =>
    match op attempt with
    | Except.ok a => ⟨Except.ok a, 1, []⟩
    | Except.error e =>
      if remaining = 0 then ⟨Except.error e, 1, []⟩
      else
        let d := baseDelay * 2 ^ (attempt - 1) + jitter attempt
        let t := retryGo op baseDelay jitter (attempt + 1) remaining
        ⟨t.result, t.attempts + 1, d :: t.delays⟩

/-- `CookieResourceLoader.retryOperation(operation, maxAttempts, baseDelay)`. -/
def retryOperation {α : Type} (op : Nat → Except String α) (maxAttempts baseDelay : Nat)
    (jitter : Nat → Nat) : RetryTrace α :=
  retryGo op baseDelay jitter 1 maxAttempts

/-- `!html.trim()` — the fetched text is blank. -/
def isBlank (s : String) : Bool := s.toList.all (fun c => c.isWhitespace)

/-- `html.includes('cookie-banner')`, spelled out on character lists so it
evaluates by kernel reduction. -/
def containsSub (s pat : String) : Bool :=
  (List.range (s.length + 1)).any (fun i => pat.toList.isPrefixOf (s.toList.drop i))

/-- One attempt of the operation `loadHTML` passes to `retryOperation`
(229-272): the fetch itself (timeout/abort, non-ok HTTP status and network
failure are all rejections), then the content validation
`!html.trim() || !html.includes('cookie-banner')`, whose failure throws
`Invalid HTML content received.` (the `#cookie-banner` element lookup of
`injectHTML` is folded into the same anchor check). -/
def htmlOperation (fetch : Nat → Except String String) (attempt : Nat) :
    Except String String :=
  match fetch attempt with
  | Except.error e => Except.error e
  | Except.ok html =>
    if isBlank html || !containsSub html "cookie-banner" then
      Except.error "Invalid HTML content received."
    else Except.ok html

/-- The environment a `load` run observes: whether each asset is already
present (the `loadedResources`/DOM-query skip checks), the single-attempt
outcomes of the CSS `<link>` and JS `<script>` loads, the per-attempt
outcome of the markup fetch, the jitter draws, and whether
`#cookie-banner` is already in the document. -/
structure LoadEnv where
  cssLinked : Bool
  cssOutcome : Except String Unit
  htmlLoaded : Bool
  htmlFetch : Nat → Except String String
  jitter : Nat → Nat
  jsLoaded : Bool
  jsOutcome : Except String Unit
  bannerInDoc : Bool

/-- The observable outcome of `loadResourcesSequentially`:
whether the success log was reached, whether `#cookie-banner` is in the
page afterwards, whether the fallback banner was injected, and the markup
fetch trace. -/
structure LoadResult where
  loadedOk : Bool
  bannerPresent : Bool
  fallbackInjected : Bool
  htmlAttempts : Nat
  htmlDelays : List Nat
deriving Repr

/-- `CookieResourceLoader.loadCSS` (179-224): skipped when already
present; otherwise a single `<link>` insertion guarded by the 5 s timeout
— there is no retry around it.  Returns the outcome and the number of
load attempts made. -/
def loadCSS (linked : Bool) (outcome : Except String Unit) : Except String Unit × Nat :=
  if linked then (Except.ok (), 0) else (outcome, 1)

/-- `CookieResourceLoader.loadJS` (306-346): same single-attempt shape as
`loadCSS`. -/
def loadJS (loaded : Bool) (outcome : Except String Unit) : Except String Unit × Nat :=
  if loaded then (Except.ok (), 0) else (outcome, 1)

/-- `CookieResourceLoader.loadHTML` (229-272): skipped when already
loaded, otherwise the fetch-validate-inject operation run under
`retryOperation(…, RETRY_ATTEMPTS, RETRY_DELAY)`. -/
def loadHTML (env : LoadEnv) : RetryTrace String :=
  if env.htmlLoaded then ⟨Except.ok "", 0, []⟩
  else retryOperation (htmlOperation env.htmlFetch) RETRY_ATTEMPTS RETRY_DELAY env.jitter

/-- `CookieResourceLoader.loadResourcesSequentially` (157-174) together
with `handleLoadError` (376-386): CSS, then markup, then script; the first
rejection is caught by the surrounding `try`/`catch`, which injects the
fallback banner (`createFallbackBanner`, 391-426) iff `#cookie-banner` is
not in the document.  The function is total: no fault escapes the catch. -/
def loadResourcesSequentially (env : LoadEnv) : LoadResult :=
  match (loadCSS env.cssLinked env.cssOutcome).1 with
  | Except.error _ =>
    let fb := !env.bannerInDoc
    ⟨false, env.bannerInDoc || fb, fb, 0, []⟩
  | Except.ok _ =>
    let tr := loadHTML env
    match tr.result with
    | Except.error _ =>
      let fb := !env.bannerInDoc
      ⟨false, env.bannerInDoc || fb, fb, tr.attempts, tr.delays⟩
    | Except.ok _ =>
      let present := env.bannerInDoc || !env.htmlLoaded
      match (loadJS env.jsLoaded env.jsOutcome).1 with
      | Except.error _ =>
        let fb := !present
        ⟨false, present || fb, fb, tr.attempts, tr.delays⟩
      | Except.ok _ => ⟨true, present, false, tr.attempts, tr.delays⟩

/-- The preference object the fallback banner's accept button writes:
`{essential: true}` and nothing else — no other category keys, no
timestamp. -/
def fallbackPrefs : Prefs := ⟨some true, none, none, none, none⟩

/-- The record the fallback banner's accept button stores (part of
`createFallbackBanner`, 391-426):
`{prefs: {essential: true}, expiry: new Date(Date.now() + 6*30*24*60*60*1000)}`
— note: no `version` field. -/
def fallbackRecord (now : Nat) : Stored :=
  Stored.record (some fallbackPrefs) (some (now + 6 * 30 * 24 * 60 * 60 * 1000)) none

/-! ## Concrete states used by witnesses and counterexamples -/

/-- A fresh page with no stored consent: banner shown, settings hidden,
storage working. -/
def mainVisibleState : UIState :=
  ⟨true, true, true, true, Stored.absent, none, [], 0, true⟩

/-- The banner with the settings panel open. -/
def settingsState : UIState :=
  ⟨true, true, false, false, Stored.absent, none, [], 0, true⟩

/-- A fresh page whose `localStorage.setItem` throws (e.g. quota). -/
def failingStore : UIState :=
  ⟨true, true, true, true, Stored.absent, none, [], 0, false⟩

/-- A sample preference set. -/
def demoPrefs : Prefs := ⟨some true, some false, some false, some false, some 0⟩

/-- A well-formed stored record whose expiry (tick 5) lies in the past of
tick 10. -/
def expiredStored : Stored := Stored.record (some demoPrefs) (some 5) (some "1.0")

/-! ## Claims about the preference store -/

/-- Claim C1: for every preference set `P` with `essential = true`,
writing `P` (`savePreferences`) and reading the store back at any time
before the six-month expiry yields a record judged valid by
`hasValidPreferences`, and `getPreferences` returns exactly `P`. -/
theorem C1_write_then_read (p : Prefs) (s : UIState) (wt rt : Nat)
    (hess : p.essential = some true) (hw : s.storageOk = true)
    (hrt : rt < addMonths wt EXPIRY_MONTHS) :
    hasValidPreferences (savePreferences p wt s).stored rt = true ∧
      getPreferences (savePreferences p wt s).stored = some p := by
  rw [savePreferences_stored p wt s hw]
  exact ⟨by simp [hasValidPreferences, hrt], rfl⟩

/-- Witness for C1 at `P = acceptAllPrefs 0`, write time 0, read time 5. -/
theorem C1_write_then_read_witness :
    hasValidPreferences (savePreferences (acceptAllPrefs 0) 0 mainVisibleState).stored 5 = true ∧
      getPreferences (savePreferences (acceptAllPrefs 0) 0 mainVisibleState).stored =
        some (acceptAllPrefs 0) :=
  C1_write_then_read (acceptAllPrefs 0) mainVisibleState 0 5 rfl rfl (by decide)

/-- Claim C2 counterexample: a stored record whose expiry (tick 5) is in
the past of tick 10 is judged invalid, yet `getPreferences` still returns
its preference map instead of `null`. -/
theorem C2_expired_record_counterexample :
    hasValidPreferences expiredStored 10 = false ∧
      getPreferences expiredStored = some demoPrefs ∧
      getPreferences expiredStored ≠ none := by
  refine ⟨rfl, rfl, ?_⟩
  simp [getPreferences, expiredStored]

/-- Claim C2 as amended: `getPreferences` returns `none` exactly when no
preference map is retrievable (nothing stored, parse failure, or missing
`prefs` field); for any stored record with a `prefs` map it returns that
map without consulting expiry — in particular it still returns the map of
an expired record that `hasValidPreferences` rejects. -/
theorem C2_amended_accessor :
    (∀ st, getPreferences st = none ↔
        st = Stored.absent ∨ st = Stored.malformed ∨ ∃ e v, st = Stored.record none e v) ∧
    (∀ (p : Prefs) (e : Nat) (v : Option String) (now : Nat), e ≤ now →
        hasValidPreferences (Stored.record (some p) (some e) v) now = false ∧
          getPreferences (Stored.record (some p) (some e) v) = some p) := by
  constructor
  · intro st
    cases st with
    | absent => simp [getPreferences]
    | malformed => simp [getPreferences]
    | record prefs expiry version =>
      cases prefs <;> simp [getPreferences]
  · intro p e v now h
    refine ⟨?_, rfl⟩
    simp [hasValidPreferences, Nat.not_lt.mpr h]

/-- Witness for the amended C2 at the concrete expired record. -/
theorem C2_amended_accessor_witness :
    hasValidPreferences (Stored.record (some demoPrefs) (some 5) (some "1.0")) 10 = false ∧
      getPreferences (Stored.record (some demoPrefs) (some 5) (some "1.0")) = some demoPrefs :=
  C2_amended_accessor.2 demoPrefs 5 (some "1.0") 10 (by decide)

/-- Claim C3 counterexample: when `localStorage.setItem` throws, the
`catch` in `savePreferences` shows the error toast but `applyPreferences`
is never reached — the preference set is not applied. -/
theorem C3_write_failure_counterexample :
    (savePreferences demoPrefs 0 failingStore).applied ≠ some demoPrefs ∧
      (savePreferences demoPrefs 0 failingStore).toasts =
        [(ToastType.error, "Impossible de sauvegarder vos préférences.")] := by
  constructor
  · simp [savePreferences, failingStore, showError, showToast]
  · rfl

/-- Claim C3 as amended: if the persistence write throws, the user is
shown an error-class transient notification, but the preference set is
not applied for the current page view — `applyPreferences` is not
invoked, the banner is not hidden, and nothing durable is saved. -/
theorem C3_write_failure_behaviour (p : Prefs) (now : Nat) (s : UIState)
    (h : s.storageOk = false) :
    (savePreferences p now s).applied = s.applied ∧
    (savePreferences p now s).stored = s.stored ∧
    (savePreferences p now s).bannerShown = s.bannerShown ∧
    (savePreferences p now s).writeCount = s.writeCount ∧
    (savePreferences p now s).toasts =
      s.toasts ++ [(ToastType.error, "Impossible de sauvegarder vos préférences.")] := by
  simp [savePreferences, h, showError, showToast]

/-- Witness for the amended C3 at a concrete failing store. -/
theorem C3_write_failure_behaviour_witness :
    (savePreferences demoPrefs 0 failingStore).applied = none ∧
      (savePreferences demoPrefs 0 failingStore).stored = Stored.absent :=
  ⟨(C3_write_failure_behaviour demoPrefs 0 failingStore rfl).1,
   (C3_write_failure_behaviour demoPrefs 0 failingStore rfl).2.1⟩

/-- Claim C6: `hasValidPreferences` judges a stored value valid iff it
parses to a record containing a `prefs` map and an `expiry` timestamp with
the expiry strictly after the current time; every parse failure or missing
field yields `false` (absent consent, no exception), and every expired
record is invalid regardless of its preferences. -/
theorem C6_validity_characterization (st : Stored) (now : Nat) :
    hasValidPreferences st now = true ↔
      ∃ p e v, st = Stored.record (some p) (some e) v ∧ now < e := by
  cases st with
  | absent => simp [hasValidPreferences]
  | malformed => simp [hasValidPreferences]
  | record prefs expiry version =>
    cases prefs with
    | none => simp [hasValidPreferences]
    | some p =>
      cases expiry with
      | none => simp [hasValidPreferences]
      | some e =>
        simp only [hasValidPreferences, decide_eq_true_eq]
        constructor
        · intro h
          exact ⟨p, e, version, rfl, h⟩
        · rintro ⟨p1, e1, v1, heq, h⟩
          simp only [Stored.record.injEq, Option.some.injEq] at heq
          obtain ⟨-, he, -⟩ := heq
          omega

/-! ## Claims about the banner state machine -/

/-- Claim C4 (evaluating the code at the failing input): from
`MainVisible`, clicking the customize button leaves the banner hidden —
phase `Hidden`, not `SettingsVisible` — because the document-level
listener of `setupEventListeners` hides the banner on every button click,
even though the settings panel was revealed; clicking back from the
settings likewise ends `Hidden`, not `MainVisible`.  The handlers alone
(as invoked without a button click) do transition
`MainVisible → SettingsVisible → MainVisible`.  No path performs a
persistence write. -/
theorem C4_click_paths_end_hidden :
    phase (clickCustomize mainVisibleState) = Phase.Hidden ∧
    (clickCustomize mainVisibleState).settingsHidden = false ∧
    (clickCustomize mainVisibleState).writeCount = 0 ∧
    phase (handleCustomize mainVisibleState) = Phase.SettingsVisible ∧
    phase (clickBack (handleCustomize mainVisibleState)) = Phase.Hidden ∧
    phase (handleBack (handleCustomize mainVisibleState)) = Phase.MainVisible ∧
    (clickBack (handleCustomize mainVisibleState)).writeCount = 0 := by
  decide

/-- Claim C5: accept-all persists
`{essential: true, analytics: true, personalization: true, ads: true}`,
reject-all persists
`{essential: true, analytics: false, personalization: false, ads: false}`,
and no path of the subsystem — accept-all, reject-all, custom form save,
or the fallback banner — ever sets `essential` to `false`. -/
theorem C5_terminal_prefs (now : Nat) (s : UIState) (f : FormData)
    (hw : s.storageOk = true) :
    getPreferences (handleAcceptAll now s).stored = some (acceptAllPrefs now) ∧
    acceptAllPrefs now = ⟨some true, some true, some true, some true, some now⟩ ∧
    getPreferences (handleRejectAll now s).stored = some (rejectAllPrefs now) ∧
    rejectAllPrefs now = ⟨some true, some false, some false, some false, some now⟩ ∧
    getPreferences (handleFormSubmit f now s).stored = some (customPrefs f now) ∧
    (customPrefs f now).essential = some true ∧
    fallbackPrefs.essential = some true := by
  refine ⟨?_, rfl, ?_, rfl, ?_, rfl, rfl⟩ <;>
    simp [handleAcceptAll, handleRejectAll, handleFormSubmit,
      savePreferences_stored _ _ _ hw, getPreferences]

/-- Witness for C5 on a fresh page at tick 0. -/
theorem C5_terminal_prefs_witness :
    getPreferences (handleAcceptAll 0 mainVisibleState).stored = some (acceptAllPrefs 0) :=
  (C5_terminal_prefs 0 mainVisibleState ⟨false, false, false⟩ rfl).1

/-- Claim C9: while the banner is visible, Escape in the settings view is
the very invocation of the back handler (same resulting state, phase back
to `MainVisible`, no write), and Escape in the main view is the very
invocation of the reject-all handler (phase `Hidden`, exactly one write). -/
theorem C9_escape_equivalences (s : UIState) (now : Nat)
    (hv : isBannerVisible s = true) (hw : s.storageOk = true) :
    (isSettingsVisible s = true →
      handleKeyDown "Escape" now s = handleBack s ∧
      phase (handleKeyDown "Escape" now s) = Phase.MainVisible ∧
      (handleKeyDown "Escape" now s).writeCount = s.writeCount) ∧
    (isSettingsVisible s = false →
      handleKeyDown "Escape" now s = handleRejectAll now s ∧
      phase (handleKeyDown "Escape" now s) = Phase.Hidden ∧
      (handleKeyDown "Escape" now s).writeCount = s.writeCount + 1) := by
  obtain ⟨hp, hb⟩ : s.bannerPresent = true ∧ s.bannerShown = true := by
    simpa [isBannerVisible] using hv
  constructor
  · intro hs
    have heq : handleKeyDown "Escape" now s = handleBack s := by
      simp [handleKeyDown, hv, hs]
    refine ⟨heq, ?_, ?_⟩
    · rw [heq]
      simp [handleBack, hp, phase, isBannerVisible, isSettingsVisible, hb]
    · rw [heq]
      simp [handleBack, hp]
  · intro hs
    have heq : handleKeyDown "Escape" now s = handleRejectAll now s := by
      simp [handleKeyDown, hv, hs]
    refine ⟨heq, ?_, ?_⟩
    · rw [heq]
      simp [handleRejectAll, savePreferences, hw, showConfirmation, showToast,
        applyPreferences, hideBanner, hp, phase, isBannerVisible]
    · rw [heq]
      simp [handleRejectAll, savePreferences, hw, showConfirmation]

/-- Witness for C9: Escape in the settings view equals the back handler,
and Escape in the main view ends with the banner hidden. -/
theorem C9_escape_equivalences_witness :
    handleKeyDown "Escape" 0 settingsState = handleBack settingsState ∧
      phase (handleKeyDown "Escape" 0 mainVisibleState) = Phase.Hidden :=
  ⟨((C9_escape_equivalences settingsState 0 rfl rfl).1 rfl).1,
   ((C9_escape_equivalences mainVisibleState 0 rfl rfl).2 rfl).2.1⟩

/-- Claim C10: the fallback banner's accept button writes a record whose
preference map holds only `essential = true` (no other category keys) and
whose expiry is 180 days (`6*30` days) ahead, with no `version` field; the
main manager's `hasValidPreferences` judges it valid, so `init` hides the
banner on any later page load within that period. -/
theorem C10_fallback_record_valid (t0 t : Nat)
    (h : t < t0 + 6 * 30 * 24 * 60 * 60 * 1000) :
    fallbackRecord t0 =
      Stored.record (some ⟨some true, none, none, none, none⟩)
        (some (t0 + 15552000000)) none ∧
    hasValidPreferences (fallbackRecord t0) t = true ∧
    phase (initState (fallbackRecord t0) true true t) = Phase.Hidden := by
  have hval : hasValidPreferences (fallbackRecord t0) t = true := by
    simp only [fallbackRecord, fallbackPrefs, hasValidPreferences, decide_eq_true_eq]
    omega
  refine ⟨by norm_num [fallbackRecord, fallbackPrefs], hval, ?_⟩
  simp [initState, hval, hideBanner, phase, isBannerVisible]

/-- Witness for C10 with a write at tick 0 read back at tick 1. -/
theorem C10_fallback_record_valid_witness :
    hasValidPreferences (fallbackRecord 0) 1 = true ∧
      phase (initState (fallbackRecord 0) true true 1) = Phase.Hidden :=
  ⟨(C10_fallback_record_valid 0 1 (by decide)).2.1,
   (C10_fallback_record_valid 0 1 (by decide)).2.2⟩

/-! ## Claims about the resource loader -/

/-- If an attempt succeeds, the retry loop stops with that value after the
one attempt. -/
lemma retryGo_ok {α : Type} (op : Nat → Except String α) (bd : Nat) (j : Nat → Nat)
    (attempt r : Nat) (a : α) (h : op attempt = Except.ok a) :
    retryGo op bd j attempt (r + 1) = ⟨Except.ok a, 1, []⟩ := by
  simp [retryGo, h]

/-- If an attempt fails with budget left, the loop waits the backoff delay
and continues with the next attempt. -/
lemma retryGo_error_step {α : Type} (op : Nat → Except String α) (bd : Nat) (j : Nat → Nat)
    (attempt r : Nat) (e : String) (h : op attempt = Except.error e) (hr : r ≠ 0) :
    retryGo op bd j attempt (r + 1) =
      ⟨(retryGo op bd j (attempt + 1) r).result,
       (retryGo op bd j (attempt + 1) r).attempts + 1,
       (bd * 2 ^ (attempt - 1) + j attempt) :: (retryGo op bd j (attempt + 1) r).delays⟩ := by
  simp [retryGo, h, hr]

/-- If every attempt fails, the retry loop ends in an error. -/
lemma retryGo_all_fail {α : Type} (op : Nat → Except String α) (bd : Nat) (j : Nat → Nat)
    (h : ∀ k, ∃ e, op k = Except.error e) :
    ∀ remaining attempt, ∃ e, (retryGo op bd j attempt remaining).result = Except.error e := by
  intro remaining
  induction remaining with
  | zero =>
    intro a
    exact ⟨"retry budget exhausted", rfl⟩
  | succ r ih =>
    intro a
    obtain ⟨e, he⟩ := h a
    by_cases hr : r = 0
    · subst hr
      exact ⟨e, by simp [retryGo, he]⟩
    · rw [retryGo_error_step op bd j a r e he hr]
      exact ih (a + 1)

/-- Claim C7 counterexample: a failing style load is attempted exactly
once by `loadCSS` — it is never retried, unlike the markup fetch, so the
style fetch is not "retried up to 3 times". -/
theorem C7_css_single_attempt_counterexample :
    loadCSS false (Except.error "Failed to load CSS: styles/cookie.css") =
      (Except.error "Failed to load CSS: styles/cookie.css", 1) ∧
    (loadCSS false (Except.error "Failed to load CSS: styles/cookie.css")).2 ≠
      RETRY_ATTEMPTS := by
  refine ⟨rfl, ?_⟩
  decide

/-- Claim C7 as amended: all three asset loads share the 5-second
`RESOURCE_TIMEOUT`, but only the markup fetch is retried (up to 3 attempts,
base delay 1 s, factor 2, jitter below 500 ms); the style and script loads
are single-attempt.  For a markup fetch that fails on the first two
attempts and succeeds on the third, the load sequence resolves
successfully after exactly 3 markup fetch attempts with non-decreasing
delays between them. -/
theorem C7_markup_retry (env : LoadEnv)
    (hcss : (loadCSS env.cssLinked env.cssOutcome).1 = Except.ok ())
    (hh : env.htmlLoaded = false)
    (h1 : ∃ e, env.htmlFetch 1 = Except.error e)
    (h2 : ∃ e, env.htmlFetch 2 = Except.error e)
    (h3 : ∃ g, htmlOperation env.htmlFetch 3 = Except.ok g)
    (hj : ∀ k, env.jitter k < 500)
    (hjs : (loadJS env.jsLoaded env.jsOutcome).1 = Except.ok ()) :
    RESOURCE_TIMEOUT = 5000 ∧
    (loadResourcesSequentially env).loadedOk = true ∧
    (loadResourcesSequentially env).htmlAttempts = 3 ∧
    ∃ d1 d2, (loadResourcesSequentially env).htmlDelays = [d1, d2] ∧ d1 ≤ d2 := by
  obtain ⟨e1, he1⟩ := h1
  obtain ⟨e2, he2⟩ := h2
  obtain ⟨g, hg⟩ := h3
  have hop1 : htmlOperation env.htmlFetch 1 = Except.error e1 := by
    simp [htmlOperation, he1]
  have hop2 : htmlOperation env.htmlFetch 2 = Except.error e2 := by
    simp [htmlOperation, he2]
  have s3 : retryGo (htmlOperation env.htmlFetch) RETRY_DELAY env.jitter 3 1 =
      ⟨Except.ok g, 1, []⟩ :=
    retryGo_ok (htmlOperation env.htmlFetch) RETRY_DELAY env.jitter 3 0 g hg
  have s2 : retryGo (htmlOperation env.htmlFetch) RETRY_DELAY env.jitter 2 2 =
      ⟨Except.ok g, 2, [RETRY_DELAY * 2 ^ 1 + env.jitter 2]⟩ := by
    rw [retryGo_error_step (htmlOperation env.htmlFetch) RETRY_DELAY env.jitter 2 1 e2 hop2
      one_ne_zero, s3]
  have s1 : retryGo (htmlOperation env.htmlFetch) RETRY_DELAY env.jitter 1 3 =
      ⟨Except.ok g, 3,
        [RETRY_DELAY * 2 ^ 0 + env.jitter 1, RETRY_DELAY * 2 ^ 1 + env.jitter 2]⟩ := by
    rw [retryGo_error_step (htmlOperation env.htmlFetch) RETRY_DELAY env.jitter 1 2 e1 hop1
      two_ne_zero, s2]
  have htr : loadHTML env =
      ⟨Except.ok g, 3,
        [RETRY_DELAY * 2 ^ 0 + env.jitter 1, RETRY_DELAY * 2 ^ 1 + env.jitter 2]⟩ := by
    rw [loadHTML, if_neg (by simp [hh]), retryOperation]
    exact s1
  have hout : loadResourcesSequentially env =
      ⟨true, env.bannerInDoc || !env.htmlLoaded, false, 3,
        [RETRY_DELAY * 2 ^ 0 + env.jitter 1, RETRY_DELAY * 2 ^ 1 + env.jitter 2]⟩ := by
    rw [loadResourcesSequentially, hcss, htr, hjs]
  refine ⟨rfl, ?_, ?_, ?_⟩
  · rw [hout]
  · rw [hout]
  · refine ⟨RETRY_DELAY * 2 ^ 0 + env.jitter 1, RETRY_DELAY * 2 ^ 1 + env.jitter 2, ?_, ?_⟩
    · rw [hout]
    · have := hj 1
      simp only [RETRY_DELAY, pow_zero, pow_one]
      omega

/-- The markup fetch of the witness run: two failures, then valid banner
markup. -/
def demoFetch : Nat → Except String String := fun k =>
  match k with
  | 1 => Except.error "HTTP 500: Internal Server Error"
  | 2 => Except.error "HTTP 500: Internal Server Error"
  | _ => Except.ok "<div id=cookie-banner>Cookies</div>"

/-- A loader environment whose markup fetch succeeds on the third attempt. -/
def retryDemoEnv : LoadEnv :=
  ⟨false, Except.ok (), false, demoFetch, fun _ => 0, false, Except.ok (), false⟩

/-- Witness for the amended C7 on the two-failures-then-success run. -/
theorem C7_markup_retry_witness :
    (loadResourcesSequentially retryDemoEnv).loadedOk = true ∧
      (loadResourcesSequentially retryDemoEnv).htmlAttempts = 3 :=
  ⟨(C7_markup_retry retryDemoEnv rfl rfl ⟨"HTTP 500: Internal Server Error", rfl⟩
      ⟨"HTTP 500: Internal Server Error", rfl⟩ ⟨"<div id=cookie-banner>Cookies</div>", rfl⟩
      (fun _ => by norm_num [retryDemoEnv]) rfl).2.1,
   (C7_markup_retry retryDemoEnv rfl rfl ⟨"HTTP 500: Internal Server Error", rfl⟩
      ⟨"HTTP 500: Internal Server Error", rfl⟩ ⟨"<div id=cookie-banner>Cookies</div>", rfl⟩
      (fun _ => by norm_num [retryDemoEnv]) rfl).2.2.1⟩

/-- Claim C8: when every markup fetch attempt fails, the load sequence
still completes (the outer catch absorbs the fault — the model is a total
function) and the fallback minimal consent banner is injected, so a
`#cookie-banner` element is present in the page afterwards. -/
theorem C8_markup_failure_fallback (env : LoadEnv)
    (hh : env.htmlLoaded = false) (hb : env.bannerInDoc = false)
    (hf : ∀ k, ∃ e, env.htmlFetch k = Except.error e) :
    (loadResourcesSequentially env).bannerPresent = true ∧
      (loadResourcesSequentially env).fallbackInjected = true := by
  have hop : ∀ k, ∃ e, htmlOperation env.htmlFetch k = Except.error e := by
    intro k
    obtain ⟨e, he⟩ := hf k
    exact ⟨e, by simp [htmlOperation, he]⟩
  have htr : ∃ e, (loadHTML env).result = Except.error e := by
    rw [loadHTML, if_neg (by simp [hh]), retryOperation]
    exact retryGo_all_fail (htmlOperation env.htmlFetch) RETRY_DELAY env.jitter hop
      RETRY_ATTEMPTS 1
  obtain ⟨e, he⟩ := htr
  rw [loadResourcesSequentially]
  cases hcss : (loadCSS env.cssLinked env.cssOutcome).1 with
  | error e0 => simp [hb]
  | ok u => simp [he, hb]

/-- A loader environment whose markup fetch always fails. -/
def failAllEnv : LoadEnv :=
  ⟨false, Except.ok (), false, fun _ => Except.error "HTTP 404: Not Found",
    fun _ => 0, false, Except.ok (), false⟩

/-- Witness for C8 on an always-failing markup fetch. -/
theorem C8_markup_failure_fallback_witness :
    (loadResourcesSequentially failAllEnv).bannerPresent = true ∧
      (loadResourcesSequentially failAllEnv).fallbackInjected = true :=
  C8_markup_failure_fallback failAllEnv rfl rfl (fun _ => ⟨"HTTP 404: Not Found", rfl⟩)

end CookieConsent
